import Mathlib

/-!
Verification of the WeatherToday voice-weather application core.

The development shallowly embeds the TypeScript sources:
  * `WeatherApp.ts` (two variants of the class appear in the repository;
    they differ in the fallback behaviour of `parseVoiceCommand`): the
    voice-command parser, the generic-location filter and the
    five-minute weather cache decision in `getCurrentWeather`;
  * `WeatherService.ts`: the two fetch entry points
    `getWeatherByCity` / `getWeatherByCoordinates`, the raw-payload
    transform `transformWeatherData` and `capitalizeDescription`.

Strings are modelled as `List Char`; JavaScript numbers as `ℚ`;
timestamps (`Date.now()` milliseconds) as `ℕ`; thrown JavaScript values
as the `JsThrown` type, which distinguishes `Error` instances from other
thrown values because the `catch` in `getWeatherByCity` branches on
`error instanceof Error`.
-/

/-! ## JavaScript string primitives -/

/-- Coerce a Lean string literal to the `List Char` text model. -/
def str (s : String) : List Char := s.data

/-- Characters removed by JavaScript `String.prototype.trim`
(the common whitespace characters and line separators). -/
def jsWhitespace (c : Char) : Bool :=
  c = ' ' || c = '\t' || c = '\n' || c = '\r' || c = '\x0b' || c = '\x0c' ||
    c.toNat = 0xa0 || c.toNat = 0x2028 || c.toNat = 0x2029 || c.toNat = 0xfeff

/-- JavaScript `text.trim()`. -/
def jsTrim (s : List Char) : List Char :=
  ((s.dropWhile jsWhitespace).reverse.dropWhile jsWhitespace).reverse

/-- JavaScript `text.toLowerCase()` (ASCII letters; the pattern
literals and generic terms are all ASCII). -/
def jsLower (s : List Char) : List Char := s.map Char.toLower

/-- Embedding of `text.toLowerCase().trim()`, the normalisation both
`parseVoiceCommand` variants apply first. -/
def jsLowerTrim (s : List Char) : List Char := jsTrim (jsLower s)

/-- Line terminators, which the regex `.` metacharacter never matches. -/
def isLineTerm (c : Char) : Bool :=
  c = '\n' || c = '\r' || c.toNat = 0x2028 || c.toNat = 0x2029

/-! ## The regex fragments used by `parseVoiceCommand`

Every pattern in the source is of one of two shapes: a literal
(with `'?` optional apostrophes) followed by a greedy capture `(.+)`,
or a greedy capture `(.+)` followed by a literal (`/(.+) weather/`).
Matching is leftmost-start, greedy, as in JavaScript. -/

/-- One token of a regex literal: a plain character or a `c?` optional
character (the sources use `'?`). -/
inductive LTok where
  | ch (c : Char)
  | opt (c : Char)
deriving DecidableEq, Repr

/-- Plain literal tokens from a string. -/
def lits (s : String) : List LTok := s.data.map LTok.ch

/-- Match a literal token list at the front of the text, returning the
rest of the text.  `opt` is greedy with backtracking, as in a regex. -/
def matchLit : List LTok → List Char → Option (List Char)
  | [], s => some s
  | LTok.ch _ :: _, [] => none
  | LTok.ch c :: ts, d :: s => if d = c then matchLit ts s else none
  | LTok.opt _ :: ts, [] => matchLit ts []
  | LTok.opt c :: ts, d :: s =>
    if d = c then
      match matchLit ts s with
      | some r => some r
      | none => matchLit ts (d :: s)
    else matchLit ts (d :: s)

/-- Leftmost match of `lit(.+)`: at the first position where the literal
matches and at least one non-line-terminator character follows, the
greedy capture takes the whole rest of the line.  Returns the capture. -/
def findLitCapture (lit : List LTok) : List Char → Option (List Char)
  | [] => none
  | c :: s =>
    match matchLit lit (c :: s) with
    | some rest =>
      let cap := rest.takeWhile (fun d => !isLineTerm d)
      if cap.isEmpty then findLitCapture lit s else some cap
    | none => findLitCapture lit s

/-- Whether the text begins with the given plain literal. -/
def litMatchesFront : List Char → List Char → Bool
  | [], _ => true
  | _ :: _, [] => false
  | c :: cs, d :: ds => c = d && litMatchesFront cs ds

/-- Greedy capture search for `(.+)lit`: try capture lengths from `l`
downwards; the capture is a prefix of the leading non-line-terminator
run, the literal must follow it. -/
def tryLens (lit s : List Char) : Nat → Option (List Char)
  | 0 => none
  | l + 1 =>
    if litMatchesFront lit (s.drop (l + 1)) then some (s.take (l + 1))
    else tryLens lit s l

/-- Leftmost match of `(.+)lit` (the `/(.+) weather/` pattern):
at the first feasible start, the greedy capture is the longest prefix of
the line such that the literal follows it.  Returns the capture. -/
def findCapThenLit (lit : List Char) : List Char → Option (List Char)
  | [] => none
  | c :: s =>
    match tryLens lit (c :: s) ((List.takeWhile (fun d => !isLineTerm d) (c :: s)).length) with
    | some cap => some cap
    | none => findCapThenLit lit s

/-- Embedding of `pattern.test(text)` for a pure literal pattern (the general
current-location patterns capture nothing). -/
def containsLit (lit : List LTok) : List Char → Bool
  | [] => (matchLit lit []).isSome
  | c :: s => (matchLit lit (c :: s)).isSome || containsLit lit s

/-- The two shapes of location-capturing patterns in the sources. -/
inductive PatternShape where
  | litCap (lit : List LTok)
  | capLit (lit : List Char)

/-- Run a location-capturing pattern, returning `match[1]`. -/
def runPattern : PatternShape → List Char → Option (List Char)
  | PatternShape.litCap lit, s => findLitCapture lit s
  | PatternShape.capLit lit, s => findCapThenLit lit s

/-! ## `parseVoiceCommand` (both variants) and `isGenericLocation` -/

/-- Embedding of `types.ts` `WeatherCommand` union. -/
inductive WeatherCommand where
  | current
  | today
  | weather
  | forecast
  | temperature
  | conditions
deriving DecidableEq, Repr

/-- Embedding of `types.ts` `ParsedVoiceCommand`. -/
structure ParsedVoiceCommand where
  command : WeatherCommand
  location : Option (List Char) := none
  isLocationSpecific : Bool
deriving DecidableEq, Repr

/-- The fixed generic-term list of `isGenericLocation`. -/
def genericTerms : List (List Char) :=
  [str "here", str "there", str "this place", str "my location", str "current location"]

/-- Embedding of `WeatherApp.isGenericLocation` (identical in both variants). -/
def isGenericLocation (location : List Char) : Bool :=
  genericTerms.contains (jsLower location)

/-- Embedding of `/weather in (.+)/i` (tried first in both variants). -/
def patWeatherIn : List LTok := lits "weather in "

/-- Embedding of `/what'?s the weather in (.+)/i`. -/
def patWhatsTheWeatherIn : List LTok :=
  lits "what" ++ [LTok.opt '\''] ++ lits "s the weather in "

/-- Embedding of `/how'?s the weather in (.+)/i`. -/
def patHowsTheWeatherIn : List LTok :=
  lits "how" ++ [LTok.opt '\''] ++ lits "s the weather in "

/-- Embedding of `locationPatterns` of the first app variant, in source order. -/
def locationPatternsV1 : List PatternShape :=
  [PatternShape.litCap patWeatherIn,
   PatternShape.capLit (str " weather"),
   PatternShape.litCap patWhatsTheWeatherIn,
   PatternShape.litCap patHowsTheWeatherIn]

/-- Embedding of `locationPatterns` of the second app variant: the same four plus
`/weather for (.+)/i` and `/tell me the weather in (.+)/i`. -/
def locationPatternsV2 : List PatternShape :=
  locationPatternsV1 ++
    [PatternShape.litCap (lits "weather for "),
     PatternShape.litCap (lits "tell me the weather in ")]

/-- Embedding of `weatherPatterns` of the first variant (general current-location
patterns), in source order. -/
def weatherPatterns : List (List LTok) :=
  [lits "what" ++ [LTok.opt '\''] ++ lits "s the weather",
   lits "current weather",
   lits "weather conditions",
   lits "how" ++ [LTok.opt '\''] ++ lits "s the weather",
   lits "weather today",
   lits "today" ++ [LTok.opt '\''] ++ lits "s weather"]

/-- The `for (const pattern of locationPatterns)` loop: first pattern
whose trimmed capture is not generic wins. -/
def tryLocationPatterns : List PatternShape → List Char → Option (List Char)
  | [], _ => none
  | p :: ps, s =>
    match runPattern p s with
    | some cap =>
      if isGenericLocation (jsTrim cap) then tryLocationPatterns ps s
      else some (jsTrim cap)
    | none => tryLocationPatterns ps s

/-- Embedding of `WeatherApp.parseVoiceCommand`, first variant (with the general
current-location fallback). -/
def parseVoiceCommandV1 (text : List Char) : Except String ParsedVoiceCommand :=
  match tryLocationPatterns locationPatternsV1 (jsLowerTrim text) with
  | some location => Except.ok ⟨WeatherCommand.weather, some location, true⟩
  | none =>
    if weatherPatterns.any (fun p => containsLit p (jsLowerTrim text)) then
      Except.ok ⟨WeatherCommand.current, none, false⟩
    else Except.error "Unrecognized weather command"

/-- Embedding of `WeatherApp.parseVoiceCommand`, second variant (city required,
no fallback). -/
def parseVoiceCommandV2 (text : List Char) : Except String ParsedVoiceCommand :=
  match tryLocationPatterns locationPatternsV2 (jsLowerTrim text) with
  | some location => Except.ok ⟨WeatherCommand.weather, some location, true⟩
  | none => Except.error "Please specify a city name"

instance {ε α : Type} [DecidableEq ε] [DecidableEq α] : DecidableEq (Except ε α) :=
  fun a b =>
    match a, b with
    | Except.ok x, Except.ok y =>
      if h : x = y then isTrue (by rw [h]) else isFalse (fun hh => h (Except.ok.inj hh))
    | Except.error e, Except.error f =>
      if h : e = f then isTrue (by rw [h]) else isFalse (fun hh => h (Except.error.inj hh))
    | Except.ok _, Except.error _ => isFalse (fun hh => Except.noConfusion hh)
    | Except.error _, Except.ok _ => isFalse (fun hh => Except.noConfusion hh)

/-! ## `WeatherService`: data model and transform -/

/-- JavaScript `Math.round`: round half toward positive infinity.
Implemented division-free on the reduced fraction so that it evaluates
by kernel reduction; `jsRound_eq_floor` relates it to `⌊q + 1/2⌋`. -/
def jsRound (q : ℚ) : ℤ := (2 * q.num + q.den).fdiv (2 * q.den)

/-- Lemma: `jsRound` is the round-half-up function. -/
theorem jsRound_eq_floor (q : ℚ) : jsRound q = ⌊q + 1/2⌋ := by
  have hd : ((q.den : ℚ)) ≠ 0 := Nat.cast_ne_zero.mpr q.den_nz
  have hq : q + 1/2 = ((2 * q.num + (q.den : ℤ) : ℤ) : ℚ) / ((2 * q.den : ℕ) : ℚ) := by
    nth_rewrite 1 [← Rat.num_div_den q]
    push_cast
    field_simp
    ring
  rw [hq, Rat.floor_intCast_div_natCast]
  unfold jsRound
  rw [Int.fdiv_eq_ediv _ (by positivity)]
  push_cast
  ring_nf

/-- Embedding of `main` object of the raw OpenWeatherMap payload (`types.ts`). -/
structure ApiMain where
  temp : ℚ
  feels_like : ℚ
  humidity : ℚ
  pressure : ℚ
deriving DecidableEq, Repr

/-- An element of the raw payload's `weather` array. -/
structure ApiWeatherItem where
  main : List Char
  description : List Char
deriving DecidableEq, Repr

/-- Embedding of `wind` object of the raw payload. -/
structure ApiWind where
  speed : ℚ
  deg : Option ℚ := none
deriving DecidableEq, Repr

/-- Embedding of `sys` object of the raw payload. -/
structure ApiSys where
  country : List Char
deriving DecidableEq, Repr

/-- Embedding of `types.ts` `WeatherApiResponse`. -/
structure WeatherApiResponse where
  main : ApiMain
  weather : List ApiWeatherItem
  wind : ApiWind
  visibility : Option ℚ := none
  name : List Char
  sys : ApiSys
deriving DecidableEq, Repr

/-- Embedding of `types.ts` `GeocodingResponse`. -/
structure GeocodingResponse where
  name : List Char := []
  lat : ℚ
  lon : ℚ
  country : List Char := []
  state : Option (List Char) := none
deriving DecidableEq, Repr

/-- Embedding of `types.ts` `WeatherData`, in the shape `transformWeatherData`
actually produces: `pressure` and `feelsLike` are always set there, and
`uvIndex` never is. -/
structure WeatherData where
  location : List Char
  temperature : ℤ
  description : List Char
  humidity : ℚ
  windSpeed : ℤ
  windDirection : Option ℚ := none
  pressure : ℚ
  visibility : Option ℤ := none
  feelsLike : ℤ
deriving DecidableEq, Repr

/-- Embedding of `word.charAt(0).toUpperCase() + word.slice(1)`. -/
def capWord : List Char → List Char
  | [] => []
  | c :: cs => Char.toUpper c :: cs

/-- JavaScript `description.split(' ')`. -/
def splitOnSpace : List Char → List (List Char)
  | [] => [[]]
  | c :: s =>
    if c = ' ' then [] :: splitOnSpace s
    else
      match splitOnSpace s with
      | [] => [[c]]
      | w :: ws => (c :: w) :: ws

/-- JavaScript `words.join(' ')`. -/
def joinWords : List (List Char) → List Char
  | [] => []
  | [w] => w
  | w :: v :: ws => w ++ ' ' :: joinWords (v :: ws)

/-- Embedding of `WeatherService.capitalizeDescription`. -/
def capitalizeDescription (description : List Char) : List Char :=
  joinWords ((splitOnSpace description).map capWord)

/-- Embedding of `Math.round(v / 1000)` for the visibility conversion, division-free;
`roundDiv1000_eq` relates it to `jsRound (v / 1000)`. -/
def roundDiv1000 (v : ℚ) : ℤ := jsRound (Rat.divInt v.num (1000 * v.den))

/-- The fraction used by `roundDiv1000` is `v / 1000`. -/
theorem roundDiv1000_eq (v : ℚ) : roundDiv1000 v = jsRound (v / 1000) := by
  have hd : ((v.den : ℚ)) ≠ 0 := Nat.cast_ne_zero.mpr v.den_nz
  unfold roundDiv1000
  congr 1
  conv_rhs => rw [← Rat.num_div_den v]
  rw [Rat.divInt_eq_div]
  push_cast
  field_simp
  left
  ring

/-- Embedding of `WeatherService.transformWeatherData`.  The source reads
`data.weather[0].description`; a payload with an empty `weather` array
makes that access fail at run time, modelled as `none`.  The
`data.visibility ? … : undefined` conditional is JavaScript truthiness:
a present value of `0` also yields `undefined`. -/
def transformWeatherData (data : WeatherApiResponse) : Option WeatherData :=
  match data.weather with
  | [] => none
  | w0 :: _ =>
    some
      { location := data.name ++ str ", " ++ data.sys.country
        temperature := jsRound data.main.temp
        description := capitalizeDescription w0.description
        humidity := data.main.humidity
        windSpeed := jsRound data.wind.speed
        windDirection := data.wind.deg
        pressure := data.main.pressure
        visibility :=
          match data.visibility with
          | some v => if v = 0 then none else some (roundDiv1000 v)
          | none => none
        feelsLike := jsRound data.main.feels_like }

/-! ## `WeatherService`: fetch entry points and error handling -/

/-- A thrown JavaScript value.  `error` is an `Error` instance carrying
its message; `typeError` stands for the runtime `TypeError` thrown by
`data.weather[0].description` on an empty array (also an `Error`
instance); `nonError` is any thrown non-`Error` value. -/
inductive JsThrown where
  | error (message : List Char)
  | typeError
  | nonError (id : Nat)
deriving DecidableEq, Repr

/-- Embedding of `error instanceof Error`. -/
def instanceOfError : JsThrown → Bool
  | JsThrown.error _ => true
  | JsThrown.typeError => true
  | JsThrown.nonError _ => false

/-- Message of the generic wrapper `new Error('Failed to fetch weather data')`. -/
def fetchFailedMsg : List Char := str "Failed to fetch weather data"

/-- Message of the distinct city-not-found error. -/
def cityNotFoundMsg (cityName : List Char) : List Char :=
  str "City \"" ++ cityName ++ str "\" not found"

/-- The `catch` block of `getWeatherByCity`: rethrow `Error` instances
unchanged, wrap anything else in the generic error. -/
def rethrowOrWrap (t : JsThrown) : JsThrown :=
  if instanceOfError t then t else JsThrown.error fetchFailedMsg

/-- Embedding of `types.ts` `LocationCoordinates`. -/
structure LocationCoordinates where
  latitude : ℚ
  longitude : ℚ
  accuracy : Option ℚ := none
deriving DecidableEq, Repr

/-- The two external endpoints, as response oracles: the geocoding call
(query string) and the weather call (latitude, longitude). -/
structure FetchEnv where
  geo : List Char → Except JsThrown (List GeocodingResponse)
  weather : ℚ → ℚ → Except JsThrown WeatherApiResponse

/-- A record of an outgoing API call. -/
inductive ApiCall where
  | geoCall (q : List Char)
  | weatherCall (lat lon : ℚ)
deriving DecidableEq, Repr

/-- Embedding of `WeatherService.getWeatherByCity`: geocode (limit 1), fail with the
city-not-found error on an empty result, then fetch weather for the
first result's coordinates and transform.  All failures (including the
internally thrown not-found error) pass through the single
`catch`/`rethrowOrWrap`.  Also returns the list of endpoint calls made. -/
def getWeatherByCity (env : FetchEnv) (cityName : List Char) :
    Except JsThrown WeatherData × List ApiCall :=
  match env.geo cityName with
  | Except.error t => (Except.error (rethrowOrWrap t), [ApiCall.geoCall cityName])
  | Except.ok geoData =>
    match geoData with
    | [] =>
      (Except.error (rethrowOrWrap (JsThrown.error (cityNotFoundMsg cityName))),
        [ApiCall.geoCall cityName])
    | g :: _ =>
      match env.weather g.lat g.lon with
      | Except.error t =>
        (Except.error (rethrowOrWrap t),
          [ApiCall.geoCall cityName, ApiCall.weatherCall g.lat g.lon])
      | Except.ok data =>
        match transformWeatherData data with
        | some wd => (Except.ok wd, [ApiCall.geoCall cityName, ApiCall.weatherCall g.lat g.lon])
        | none =>
          (Except.error (rethrowOrWrap JsThrown.typeError),
            [ApiCall.geoCall cityName, ApiCall.weatherCall g.lat g.lon])

/-- Embedding of `WeatherService.getWeatherByCoordinates`: fetch weather directly and
transform; its `catch` always replaces the failure with the generic
`Failed to fetch weather data` error. -/
def getWeatherByCoordinates (env : FetchEnv) (coords : LocationCoordinates) :
    Except JsThrown WeatherData :=
  match env.weather coords.latitude coords.longitude with
  | Except.error _ => Except.error (JsThrown.error fetchFailedMsg)
  | Except.ok data =>
    match transformWeatherData data with
    | some wd => Except.ok wd
    | none => Except.error (JsThrown.error fetchFailedMsg)

/-! ## Session state and the `getCurrentWeather` cache decision -/

/-- Embedding of `preferredUnits` values. -/
inductive UnitsPref where
  | metric
  | imperial
deriving DecidableEq, Repr

/-- Embedding of `types.ts` `SessionState` (plus `lastLocation`, which
`WeatherApp` stores on it). -/
structure SessionState where
  lastWeatherData : Option WeatherData := none
  lastUpdateTime : Option Nat := none
  lastLocation : Option LocationCoordinates := none
  preferredUnits : UnitsPref := UnitsPref.imperial
deriving DecidableEq, Repr

/-- Embedding of `const fiveMinutes = 5 * 60 * 1000` (milliseconds). -/
def fiveMinutes : Nat := 5 * 60 * 1000

/-- Outcome of `getCurrentWeather`: display the cached record, or fall
through to a fresh current-location resolution
(`handleWeatherCommand` with the `current` command). -/
inductive CurrentWeatherAction where
  | serveCached (w : WeatherData)
  | freshResolution
deriving DecidableEq, Repr

/-- The cache decision of `WeatherApp.getCurrentWeather` (first
variant): serve the cached record iff a last location is stored, the
last update is younger than five minutes (`lastUpdateTime || 0`), and a
last weather record is stored. -/
def getCurrentWeather (sessionState : Option SessionState) (now : Nat) :
    CurrentWeatherAction :=
  match sessionState with
  | none => CurrentWeatherAction.freshResolution
  | some st =>
    if st.lastLocation.isSome then
      let lastUpdate := st.lastUpdateTime.getD 0
      if now - lastUpdate < fiveMinutes then
        match st.lastWeatherData with
        | some w => CurrentWeatherAction.serveCached w
        | none => CurrentWeatherAction.freshResolution
      else CurrentWeatherAction.freshResolution
    else CurrentWeatherAction.freshResolution

/-! ## Concrete payloads from the specification's test properties -/

/-- The mock weather payload of the end-to-end test property:
`{main:{temp:72.4, feels_like:70.1, humidity:55, pressure:1012},
weather:[{description:"clear sky"}], wind:{speed:5.2}, name:"Tokyo",
sys:{country:"JP"}}`. -/
def mockPayload : WeatherApiResponse :=
  { main :=
      { temp := Rat.divInt 724 10
        feels_like := Rat.divInt 701 10
        humidity := 55
        pressure := 1012 }
    weather := [{ main := str "Clear", description := str "clear sky" }]
    wind := { speed := Rat.divInt 26 5 }
    name := str "Tokyo"
    sys := { country := str "JP" } }

/-- The record the specification expects for `mockPayload`. -/
def tokyoRecord : WeatherData :=
  { location := str "Tokyo, JP"
    temperature := 72
    description := str "Clear Sky"
    humidity := 55
    windSpeed := 5
    windDirection := none
    pressure := 1012
    visibility := none
    feelsLike := 70 }

/-- Variant of `mockPayload` with visibility 1500 m. -/
def visPayload1500 : WeatherApiResponse := { mockPayload with visibility := some 1500 }

/-- Variant of `mockPayload` with visibility 0 m (present but JavaScript-falsy). -/
def visPayloadZero : WeatherApiResponse := { mockPayload with visibility := some 0 }

/-- Variant of `mockPayload` with visibility 5000 m (the specification's example). -/
def visPayload5000 : WeatherApiResponse := { mockPayload with visibility := some 5000 }

/-! ## Claim theorems: the transform (C5, C7, C9, C10) -/

/-- Claim C5 (confirmed): for every raw payload (with the implicit
non-empty `weather` array the transform needs), `transformWeatherData`
yields location `"<name>, <country>"`, rounded temperature, feels-like
and wind speed, unchanged humidity, and the wind degree passed through
when present; and the specification's mock Tokyo payload maps to the
expected record. -/
theorem c5_transform_fields :
    (∀ (data : WeatherApiResponse) (w0 : ApiWeatherItem) (rest : List ApiWeatherItem),
      data.weather = w0 :: rest →
      ∃ r, transformWeatherData data = some r
        ∧ r.location = data.name ++ str ", " ++ data.sys.country
        ∧ r.temperature = jsRound data.main.temp
        ∧ r.feelsLike = jsRound data.main.feels_like
        ∧ r.humidity = data.main.humidity
        ∧ r.windSpeed = jsRound data.wind.speed
        ∧ r.windDirection = data.wind.deg
        ∧ r.description = capitalizeDescription w0.description)
    ∧ transformWeatherData mockPayload = some tokyoRecord := by
  constructor
  · intro data w0 rest hw
    unfold transformWeatherData
    rw [hw]
    exact ⟨_, rfl, rfl, rfl, rfl, rfl, rfl, rfl, rfl⟩
  · decide

/-- Witness for C5: the general part applied to the mock payload. -/
theorem c5_transform_fields_witness :
    ∃ r, transformWeatherData mockPayload = some r
      ∧ r.location = mockPayload.name ++ str ", " ++ mockPayload.sys.country
      ∧ r.temperature = jsRound mockPayload.main.temp
      ∧ r.feelsLike = jsRound mockPayload.main.feels_like
      ∧ r.humidity = mockPayload.main.humidity
      ∧ r.windSpeed = jsRound mockPayload.wind.speed
      ∧ r.windDirection = mockPayload.wind.deg
      ∧ r.description = capitalizeDescription (str "clear sky") :=
  c5_transform_fields.1 mockPayload ⟨str "Clear", str "clear sky"⟩ [] rfl

/-- Claim C7 (corrected) counterexample: the code computes
`Math.round(visibility / 1000)`, not the integer division the claim
states: 1500 m yields 2 km while integer division gives 1; and a
present visibility of 0 m yields an *absent* `visibilityKm` (JavaScript
truthiness), contradicting "present iff present". -/
theorem c7_counterexample :
    (transformWeatherData visPayload1500).map WeatherData.visibility = some (some 2)
    ∧ (1500 : ℤ) / 1000 = 1
    ∧ (transformWeatherData visPayload1500).map WeatherData.visibility ≠
        some (some ((1500 : ℤ) / 1000))
    ∧ (transformWeatherData visPayloadZero).map WeatherData.visibility = some none := by
  decide

/-- Claim C7 (corrected, amended): the transformed `visibility` is
present iff the raw visibility is present *and non-zero*, and when
present it equals the raw value divided by 1000 and *rounded half-up*
(`Math.round`); 5000 m → 5 km and an absent raw visibility stays
absent, as the claim's examples state. -/
theorem c7_visibility_round :
    ∀ (data : WeatherApiResponse) (w0 : ApiWeatherItem) (rest : List ApiWeatherItem),
      data.weather = w0 :: rest →
      ∃ r, transformWeatherData data = some r
        ∧ (r.visibility.isSome = true ↔ ∃ v, data.visibility = some v ∧ v ≠ 0)
        ∧ (∀ v, data.visibility = some v → v ≠ 0 → r.visibility = some (roundDiv1000 v))
        ∧ (data.visibility = none → r.visibility = none)
        ∧ (data.visibility = some 0 → r.visibility = none) := by
  intro data w0 rest hw
  unfold transformWeatherData
  rw [hw]
  refine ⟨_, rfl, ?_, ?_, ?_, ?_⟩
  · cases hv : data.visibility with
    | none => simp [hv]
    | some v =>
      by_cases hz : v = 0
      · simp [hv, hz]
      · simp [hv, hz]
  · intro v hv hz
    simp [hv, hz]
  · intro hv
    simp [hv]
  · intro hv
    simp [hv]

/-- Witness for C7: the amended statement applied to the 5000 m, 1500 m
and absent-visibility payloads. -/
theorem c7_visibility_round_witness :
    (transformWeatherData visPayload5000).map WeatherData.visibility = some (some 5)
    ∧ (transformWeatherData mockPayload).map WeatherData.visibility = some none := by
  constructor
  · obtain ⟨r, hr, -, hval, -, -⟩ :=
      c7_visibility_round visPayload5000 ⟨str "Clear", str "clear sky"⟩ [] rfl
    rw [hr]
    show some r.visibility = some (some 5)
    rw [hval 5000 rfl (by decide)]
    decide
  · obtain ⟨r, hr, -, -, hnone, -⟩ :=
      c7_visibility_round mockPayload ⟨str "Clear", str "clear sky"⟩ [] rfl
    rw [hr]
    show some r.visibility = some none
    rw [hnone rfl]

/-! ## Claim C9: description capitalization -/

/-- Lemma: `split(' ')` of a space-free word is the single word. -/
theorem splitOnSpace_no_space : ∀ (w : List Char), ' ' ∉ w → splitOnSpace w = [w]
  | [], _ => rfl
  | c :: cs, h => by
    have hc : ¬(c = ' ') := fun hc => h (hc ▸ List.mem_cons_self c cs)
    have ih := splitOnSpace_no_space cs (fun hm => h (List.mem_cons_of_mem c hm))
    simp only [splitOnSpace, if_neg hc, ih]

/-- Lemma: `split(' ')` takes a space-free word off the front. -/
theorem splitOnSpace_word_append : ∀ (w t : List Char), ' ' ∉ w →
    splitOnSpace (w ++ ' ' :: t) = w :: splitOnSpace t
  | [], t, _ => by simp [splitOnSpace]
  | c :: cs, t, h => by
    have hc : ¬(c = ' ') := fun hc => h (hc ▸ List.mem_cons_self c cs)
    have ih := splitOnSpace_word_append cs t (fun hm => h (List.mem_cons_of_mem c hm))
    show splitOnSpace (c :: (cs ++ ' ' :: t)) = (c :: cs) :: splitOnSpace t
    simp only [splitOnSpace, if_neg hc, ih]

/-- Lemma: `split(' ')` inverts `join(' ')` on non-empty lists of space-free
words. -/
theorem splitOnSpace_joinWords : ∀ (ws : List (List Char)), ws ≠ [] →
    (∀ w ∈ ws, ' ' ∉ w) → splitOnSpace (joinWords ws) = ws
  | [], h, _ => absurd rfl h
  | [w], _, hws => by
    show splitOnSpace w = [w]
    exact splitOnSpace_no_space w (hws w (List.mem_singleton.mpr rfl))
  | w :: v :: ws, _, hws => by
    have ih := splitOnSpace_joinWords (v :: ws) (by simp)
      (fun x hx => hws x (List.mem_cons_of_mem w hx))
    show splitOnSpace (w ++ ' ' :: joinWords (v :: ws)) = w :: v :: ws
    rw [splitOnSpace_word_append w _ (hws w (List.mem_cons_self w _)), ih]

/-- Claim C9 (confirmed): `capitalizeDescription` upper-cases the first
letter of each space-separated word, leaves the remainder of each word
unchanged, and rejoins with single spaces; in particular
`"light rain"` becomes `"Light Rain"`. -/
theorem c9_description_capitalization :
    (∀ (ws : List (List Char)), ws ≠ [] → (∀ w ∈ ws, ' ' ∉ w) →
      capitalizeDescription (joinWords ws) = joinWords (ws.map capWord))
    ∧ capitalizeDescription (str "light rain") = str "Light Rain" := by
  constructor
  · intro ws hne hsp
    unfold capitalizeDescription
    rw [splitOnSpace_joinWords ws hne hsp]
  · decide

/-- Witness for C9: the word-list law applied to `["light", "rain"]`. -/
theorem c9_description_capitalization_witness :
    capitalizeDescription (joinWords [str "light", str "rain"]) =
      joinWords ([str "light", str "rain"].map capWord) :=
  c9_description_capitalization.1 [str "light", str "rain"] (by decide) (by decide)

/-! ## Claim C10: the `weather[0]` access -/

/-- Claim C10 (confirmed): `transformWeatherData` reads only the first
element of the `weather` array — with a non-empty array the transform
is defined (the out-of-bounds branch is unreachable) and its result is
unchanged by the array's tail; an empty `weather` array is outside the
transform's domain. -/
theorem c10_weather_head_only :
    ∀ (data : WeatherApiResponse),
      (data.weather = [] → transformWeatherData data = none)
      ∧ (∀ w0 rest, data.weather = w0 :: rest →
          (transformWeatherData data).isSome = true
          ∧ ∀ rest', transformWeatherData { data with weather := w0 :: rest' } =
              transformWeatherData data) := by
  intro data
  constructor
  · intro h
    unfold transformWeatherData
    rw [h]
  · intro w0 rest h
    constructor
    · unfold transformWeatherData
      rw [h]
      rfl
    · intro rest'
      conv_rhs => rw [transformWeatherData.eq_def, h]
      rfl

/-- Witness for C10: the mock payload has a non-empty `weather` array;
its transform is defined and ignores an appended second array element. -/
theorem c10_weather_head_only_witness :
    (transformWeatherData mockPayload).isSome = true
    ∧ transformWeatherData
        { mockPayload with
            weather := [⟨str "Clear", str "clear sky"⟩, ⟨str "Rain", str "light rain"⟩] } =
        transformWeatherData mockPayload :=
  ⟨((c10_weather_head_only mockPayload).2 ⟨str "Clear", str "clear sky"⟩ [] rfl).1,
   ((c10_weather_head_only mockPayload).2 ⟨str "Clear", str "clear sky"⟩ [] rfl).2
     [⟨str "Rain", str "light rain"⟩]⟩

/-! ## Claim theorems: fetch error handling (C3, C4) -/

/-- Geocoding oracle answering every query with the empty result list;
the weather oracle's answer is irrelevant for C3. -/
def envGeoEmpty : FetchEnv :=
  { geo := fun _ => Except.ok []
    weather := fun _ _ => Except.error (JsThrown.nonError 0) }

/-- Environment in which every endpoint fails with a transport `Error`
instance (as axios failures are). -/
def envNetFail : FetchEnv :=
  { geo := fun _ => Except.error (JsThrown.error (str "getaddrinfo ENOTFOUND"))
    weather := fun _ _ => Except.error (JsThrown.error (str "getaddrinfo ENOTFOUND")) }

/-- Environment in which every endpoint throws a non-`Error` value. -/
def envThrowNonError : FetchEnv :=
  { geo := fun _ => Except.error (JsThrown.nonError 7)
    weather := fun _ _ => Except.error (JsThrown.nonError 7) }

/-- A Tokyo geocoding result. -/
def tokyoGeo : GeocodingResponse :=
  { name := str "Tokyo"
    lat := Rat.divInt 3568 100
    lon := Rat.divInt 13969 100
    country := str "JP" }

/-- Environment whose geocoding succeeds with one Tokyo result and
whose weather endpoint fails with a transport `Error`. -/
def envWeatherFail : FetchEnv :=
  { geo := fun _ => Except.ok [tokyoGeo]
    weather := fun _ _ => Except.error (JsThrown.error (str "ECONNRESET")) }

/-- Claim C3 (confirmed): when geocoding returns the empty list,
`getWeatherByCity` fails with the distinct `City "<name>" not found`
error — never equal to the generic `Failed to fetch weather data`
message — and the weather endpoint is not called. -/
theorem c3_city_not_found :
    ∀ (env : FetchEnv) (cityName : List Char), env.geo cityName = Except.ok [] →
      (getWeatherByCity env cityName).1 =
        Except.error (JsThrown.error (cityNotFoundMsg cityName))
      ∧ cityNotFoundMsg cityName ≠ fetchFailedMsg
      ∧ (getWeatherByCity env cityName).2 = [ApiCall.geoCall cityName] := by
  intro env cityName h
  refine ⟨?_, ?_, ?_⟩
  · unfold getWeatherByCity
    rw [h]
    rfl
  · intro hEq
    have h2 : ('C' :: (str "ity \"" ++ cityName ++ str "\" not found") : List Char)
        = 'F' :: str "ailed to fetch weather data" := hEq
    injection h2 with h3 _
    exact absurd h3 (by decide)
  · unfold getWeatherByCity
    rw [h]

/-- Witness for C3, at the specification's unknown city `"Zzzznotreal"`. -/
theorem c3_city_not_found_witness :
    (getWeatherByCity envGeoEmpty (str "Zzzznotreal")).1 =
      Except.error (JsThrown.error (cityNotFoundMsg (str "Zzzznotreal")))
    ∧ cityNotFoundMsg (str "Zzzznotreal") ≠ fetchFailedMsg
    ∧ (getWeatherByCity envGeoEmpty (str "Zzzznotreal")).2 =
        [ApiCall.geoCall (str "Zzzznotreal")] :=
  c3_city_not_found envGeoEmpty (str "Zzzznotreal") rfl

/-- Claim C4 (corrected) counterexample: a transport failure that is an
`Error` instance (as axios failures are) propagates out of
`getWeatherByCity` *unchanged* — the result is the original error, not
the generic `Failed to fetch weather data` wrapper the claim states. -/
theorem c4_counterexample :
    (getWeatherByCity envNetFail (str "london")).1 =
      Except.error (JsThrown.error (str "getaddrinfo ENOTFOUND"))
    ∧ (getWeatherByCity envNetFail (str "london")).1 ≠
        Except.error (JsThrown.error fetchFailedMsg) := by
  decide

/-- Claim C4 (corrected, amended): in `getWeatherByCity` every failure
of either endpoint passes through the single catch `rethrowOrWrap`,
which rethrows `Error` instances (transport errors included) unchanged
— so the internally raised `CityNotFound` is indeed never masked — and
replaces only non-`Error` thrown values with the generic
`WeatherFetchFailed` error; in `getWeatherByCoordinates` every failure
is replaced by the generic error. -/
theorem c4_error_wrapping :
    ∀ (env : FetchEnv) (cityName : List Char) (coords : LocationCoordinates),
      (∀ t, env.geo cityName = Except.error t →
        (getWeatherByCity env cityName).1 = Except.error (rethrowOrWrap t))
      ∧ (∀ g gs t, env.geo cityName = Except.ok (g :: gs) →
          env.weather g.lat g.lon = Except.error t →
          (getWeatherByCity env cityName).1 = Except.error (rethrowOrWrap t))
      ∧ (∀ m, rethrowOrWrap (JsThrown.error m) = JsThrown.error m)
      ∧ (∀ i, rethrowOrWrap (JsThrown.nonError i) = JsThrown.error fetchFailedMsg)
      ∧ (env.geo cityName = Except.ok [] →
          (getWeatherByCity env cityName).1 =
            Except.error (JsThrown.error (cityNotFoundMsg cityName)))
      ∧ (∀ t, env.weather coords.latitude coords.longitude = Except.error t →
          getWeatherByCoordinates env coords =
            Except.error (JsThrown.error fetchFailedMsg)) := by
  intro env cityName coords
  refine ⟨?_, ?_, fun m => rfl, fun i => rfl, ?_, ?_⟩
  · intro t h
    unfold getWeatherByCity
    rw [h]
  · intro g gs t hg hw
    unfold getWeatherByCity
    rw [hg]
    show (match env.weather g.lat g.lon with
      | Except.error t =>
        (Except.error (rethrowOrWrap t),
          [ApiCall.geoCall cityName, ApiCall.weatherCall g.lat g.lon])
      | Except.ok data =>
        match transformWeatherData data with
        | some wd => (Except.ok wd, [ApiCall.geoCall cityName, ApiCall.weatherCall g.lat g.lon])
        | none =>
          (Except.error (rethrowOrWrap JsThrown.typeError),
            [ApiCall.geoCall cityName, ApiCall.weatherCall g.lat g.lon])).1 =
      Except.error (rethrowOrWrap t)
    rw [hw]
  · intro h
    unfold getWeatherByCity
    rw [h]
    rfl
  · intro t h
    unfold getWeatherByCoordinates
    rw [h]

/-- Witness for C4: the amended behaviour at concrete environments —
a non-`Error` thrown by geocoding is wrapped, a transport `Error` from
the weather endpoint propagates unchanged, and the coordinates path
wraps its failure. -/
theorem c4_error_wrapping_witness :
    (getWeatherByCity envThrowNonError (str "london")).1 =
      Except.error (rethrowOrWrap (JsThrown.nonError 7))
    ∧ (getWeatherByCity envWeatherFail (str "tokyo")).1 =
        Except.error (rethrowOrWrap (JsThrown.error (str "ECONNRESET")))
    ∧ getWeatherByCoordinates envThrowNonError ⟨0, 0, none⟩ =
        Except.error (JsThrown.error fetchFailedMsg) :=
  ⟨(c4_error_wrapping envThrowNonError (str "london") ⟨0, 0, none⟩).1
      (JsThrown.nonError 7) rfl,
   (c4_error_wrapping envWeatherFail (str "tokyo") ⟨0, 0, none⟩).2.1
      tokyoGeo [] (JsThrown.error (str "ECONNRESET")) rfl rfl,
   (c4_error_wrapping envThrowNonError (str "london") ⟨0, 0, none⟩).2.2.2.2.2
      (JsThrown.nonError 7) rfl⟩

/-! ## Claim C8: the five-minute cache decision -/

/-- Reduction of `getCurrentWeather` on a present session state. -/
theorem getCurrentWeather_some_eq (st : SessionState) (now : Nat) :
    getCurrentWeather (some st) now =
      if st.lastLocation.isSome then
        if now - st.lastUpdateTime.getD 0 < fiveMinutes then
          match st.lastWeatherData with
          | some w => CurrentWeatherAction.serveCached w
          | none => CurrentWeatherAction.freshResolution
        else CurrentWeatherAction.freshResolution
      else CurrentWeatherAction.freshResolution := rfl

/-- Claim C8 (confirmed): with a stored update timestamp `t`,
`getCurrentWeather` serves the stored record without a fresh resolution
iff the last coordinates and the last record are both present and
`now - t` is under five minutes; in every other case it performs the
full fresh current-location resolution. -/
theorem c8_cache_freshness :
    ∀ (st : SessionState) (now t : Nat), st.lastUpdateTime = some t →
      ((∃ w, st.lastWeatherData = some w ∧
          getCurrentWeather (some st) now = CurrentWeatherAction.serveCached w) ↔
        (st.lastLocation.isSome = true ∧ st.lastWeatherData.isSome = true ∧
          now - t < fiveMinutes))
      ∧ (getCurrentWeather (some st) now = CurrentWeatherAction.freshResolution ↔
          ¬(st.lastLocation.isSome = true ∧ st.lastWeatherData.isSome = true ∧
            now - t < fiveMinutes)) := by
  intro st now t h
  simp only [getCurrentWeather_some_eq, h, Option.getD_some]
  by_cases hfresh : now - t < fiveMinutes
  · cases hl : st.lastLocation with
    | none => simp [hl, hfresh]
    | some loc =>
      cases hw : st.lastWeatherData with
      | none => simp [hl, hw, hfresh]
      | some w => simp [hl, hw, hfresh]
  · cases hl : st.lastLocation with
    | none => simp [hl, hfresh]
    | some loc =>
      cases hw : st.lastWeatherData with
      | none => simp [hl, hw, hfresh]
      | some w => simp [hl, hw, hfresh]

/-- A session state refreshed four minutes before `now0`. -/
def stFourMinutes : SessionState :=
  { lastWeatherData := some tokyoRecord
    lastUpdateTime := some (1000000000 - 240000)
    lastLocation := some ⟨0, 0, none⟩ }

/-- A session state refreshed six minutes before `now0`. -/
def stSixMinutes : SessionState :=
  { lastWeatherData := some tokyoRecord
    lastUpdateTime := some (1000000000 - 360000)
    lastLocation := some ⟨0, 0, none⟩ }

/-- Witness for C8: at `now − 4 min` the cached record is served, at
`now − 6 min` a fresh resolution runs. -/
theorem c8_cache_freshness_witness :
    getCurrentWeather (some stFourMinutes) 1000000000 =
      CurrentWeatherAction.serveCached tokyoRecord
    ∧ getCurrentWeather (some stSixMinutes) 1000000000 =
        CurrentWeatherAction.freshResolution := by
  constructor
  · obtain ⟨w, hw, hact⟩ :=
      ((c8_cache_freshness stFourMinutes 1000000000 (1000000000 - 240000) rfl).1).mpr
        (by refine ⟨rfl, rfl, ?_⟩; decide)
    have hw' : some tokyoRecord = some w := hw
    injection hw' with hw''
    rw [← hw''] at hact
    exact hact
  · exact ((c8_cache_freshness stSixMinutes 1000000000 (1000000000 - 360000) rfl).2).mpr
      (by intro hcontra; exact absurd hcontra.2.2 (by decide))

/-! ## Claim theorems: the voice-command parser (C1, C2, C6) -/

/-- If the first location pattern captures a non-generic (after
trimming) location, the pattern loop returns it immediately. -/
theorem tryLocationPatterns_cons_hit (p : PatternShape) (ps : List PatternShape)
    (s cap : List Char) (hp : runPattern p s = some cap)
    (hg : isGenericLocation (jsTrim cap) = false) :
    tryLocationPatterns (p :: ps) s = some (jsTrim cap) := by
  unfold tryLocationPatterns
  rw [hp]
  show (if isGenericLocation (jsTrim cap) = true then tryLocationPatterns ps s
        else some (jsTrim cap)) = some (jsTrim cap)
  rw [hg, if_neg Bool.false_ne_true]

/-- Claim C1 (corrected) counterexample: on input `"weather in  here"`
(two spaces) the first pattern captures `X = " here"`, which is
non-empty and — untrimmed — not one of the generic terms, yet both
parser variants reject the command instead of returning the
location-specific result `CityLookup(X.trim())` the claim promises:
the code applies the generic-term test to the *trimmed* capture. -/
theorem c1_counterexample :
    findLitCapture patWeatherIn (jsLowerTrim (str "weather in  here")) = some (str " here")
    ∧ str " here" ≠ []
    ∧ genericTerms.contains (jsLower (str " here")) = false
    ∧ parseVoiceCommandV1 (str "weather in  here") =
        Except.error "Unrecognized weather command"
    ∧ parseVoiceCommandV2 (str "weather in  here") =
        Except.error "Please specify a city name" := by
  decide

/-- Claim C1 (corrected, amended): for every input whose normalised
text matches `weather in (.+)` with capture `X` such that the *trimmed*
capture is not a generic term, both parser variants return a
location-specific result whose city is `X.trim()`. -/
theorem c1_city_capture :
    ∀ (text X : List Char),
      findLitCapture patWeatherIn (jsLowerTrim text) = some X →
      isGenericLocation (jsTrim X) = false →
      parseVoiceCommandV1 text =
        Except.ok ⟨WeatherCommand.weather, some (jsTrim X), true⟩
      ∧ parseVoiceCommandV2 text =
          Except.ok ⟨WeatherCommand.weather, some (jsTrim X), true⟩ := by
  intro text X h1 h2
  have hp : runPattern (PatternShape.litCap patWeatherIn) (jsLowerTrim text) = some X := h1
  have hv1 : tryLocationPatterns locationPatternsV1 (jsLowerTrim text) = some (jsTrim X) :=
    tryLocationPatterns_cons_hit (PatternShape.litCap patWeatherIn) _ (jsLowerTrim text) X hp h2
  have hv2 : tryLocationPatterns locationPatternsV2 (jsLowerTrim text) = some (jsTrim X) :=
    tryLocationPatterns_cons_hit (PatternShape.litCap patWeatherIn) _ (jsLowerTrim text) X hp h2
  constructor
  · unfold parseVoiceCommandV1
    rw [hv1]
  · unfold parseVoiceCommandV2
    rw [hv2]

/-- Witness for C1: `"Weather in Tokyo"` yields the city `"tokyo"` in
both variants. -/
theorem c1_city_capture_witness :
    parseVoiceCommandV1 (str "Weather in Tokyo") =
      Except.ok ⟨WeatherCommand.weather, some (jsTrim (str "tokyo")), true⟩
    ∧ parseVoiceCommandV2 (str "Weather in Tokyo") =
        Except.ok ⟨WeatherCommand.weather, some (jsTrim (str "tokyo")), true⟩ :=
  c1_city_capture (str "Weather in Tokyo") (str "tokyo") (by decide) (by decide)

/-- Claim C2 (code_bug): of the six general current-location phrasings
the first app variant's `weatherPatterns` list is meant to recognise,
four are intercepted by the earlier `/(.+) weather/` location pattern
and parsed as *city lookups* (cities `"what's the"`, `"current"`,
`"how's the"`, `"today's"`); only `"weather conditions"` and
`"weather today"` reach the fallback and yield the current-location
intent. -/
theorem c2_general_phrase_eval :
    parseVoiceCommandV1 (str "what's the weather") =
      Except.ok ⟨WeatherCommand.weather, some (str "what's the"), true⟩
    ∧ parseVoiceCommandV1 (str "current weather") =
        Except.ok ⟨WeatherCommand.weather, some (str "current"), true⟩
    ∧ parseVoiceCommandV1 (str "weather conditions") =
        Except.ok ⟨WeatherCommand.current, none, false⟩
    ∧ parseVoiceCommandV1 (str "how's the weather") =
        Except.ok ⟨WeatherCommand.weather, some (str "how's the"), true⟩
    ∧ parseVoiceCommandV1 (str "weather today") =
        Except.ok ⟨WeatherCommand.current, none, false⟩
    ∧ parseVoiceCommandV1 (str "today's weather") =
        Except.ok ⟨WeatherCommand.weather, some (str "today's"), true⟩ := by
  decide

/-- The pattern loop never returns a generic location. -/
theorem tryLocationPatterns_not_generic :
    ∀ (ps : List PatternShape) (s loc : List Char),
      tryLocationPatterns ps s = some loc → isGenericLocation loc = false
  | [], s, loc, h => by simp [tryLocationPatterns] at h
  | p :: ps, s, loc, h => by
    unfold tryLocationPatterns at h
    cases hr : runPattern p s with
    | none =>
      rw [hr] at h
      exact tryLocationPatterns_not_generic ps s loc h
    | some cap =>
      rw [hr] at h
      have h' : (if isGenericLocation (jsTrim cap) = true then tryLocationPatterns ps s
          else some (jsTrim cap)) = some loc := h
      cases hg : isGenericLocation (jsTrim cap) with
      | true =>
        rw [hg, if_pos rfl] at h'
        exact tryLocationPatterns_not_generic ps s loc h'
      | false =>
        rw [hg, if_neg Bool.false_ne_true] at h'
        injection h' with h''
        rw [← h'']
        exact hg

/-- Claim C6 (confirmed): in both variants a successful
location-specific parse never carries a generic location term
(lower-cased, the city is outside the generic-term set), and for every
generic term `G` the input `"weather in G"` is rejected by both
variants rather than parsed as a city lookup. -/
theorem c6_no_generic_city :
    (∀ (text : List Char) (r : ParsedVoiceCommand) (c : List Char),
      (parseVoiceCommandV1 text = Except.ok r ∨ parseVoiceCommandV2 text = Except.ok r) →
      r.isLocationSpecific = true → r.location = some c →
      isGenericLocation c = false)
    ∧ ∀ G ∈ genericTerms,
        parseVoiceCommandV1 (str "weather in " ++ G) =
          Except.error "Unrecognized weather command"
        ∧ parseVoiceCommandV2 (str "weather in " ++ G) =
            Except.error "Please specify a city name" := by
  constructor
  · intro text r c hok hspec hloc
    rcases hok with h | h
    · unfold parseVoiceCommandV1 at h
      cases htry : tryLocationPatterns locationPatternsV1 (jsLowerTrim text) with
      | some loc =>
        rw [htry] at h
        have h' : (Except.ok ⟨WeatherCommand.weather, some loc, true⟩ :
            Except String ParsedVoiceCommand) = Except.ok r := h
        injection h' with h''
        rw [← h''] at hloc
        have hloc' : some loc = some c := hloc
        injection hloc' with hc
        rw [← hc]
        exact tryLocationPatterns_not_generic _ _ _ htry
      | none =>
        rw [htry] at h
        have h' : (if weatherPatterns.any (fun p => containsLit p (jsLowerTrim text)) = true then
            Except.ok ⟨WeatherCommand.current, none, false⟩
          else Except.error "Unrecognized weather command") = Except.ok r := h
        cases hany : weatherPatterns.any (fun p => containsLit p (jsLowerTrim text)) with
        | true =>
          rw [hany, if_pos rfl] at h'
          injection h' with h''
          rw [← h''] at hloc
          have hloc' : (none : Option (List Char)) = some c := hloc
          exact Option.noConfusion hloc'
        | false =>
          rw [hany, if_neg Bool.false_ne_true] at h'
          exact Except.noConfusion h'
    · unfold parseVoiceCommandV2 at h
      cases htry : tryLocationPatterns locationPatternsV2 (jsLowerTrim text) with
      | some loc =>
        rw [htry] at h
        have h' : (Except.ok ⟨WeatherCommand.weather, some loc, true⟩ :
            Except String ParsedVoiceCommand) = Except.ok r := h
        injection h' with h''
        rw [← h''] at hloc
        have hloc' : some loc = some c := hloc
        injection hloc' with hc
        rw [← hc]
        exact tryLocationPatterns_not_generic _ _ _ htry
      | none =>
        rw [htry] at h
        have h' : (Except.error "Please specify a city name" :
            Except String ParsedVoiceCommand) = Except.ok r := h
        exact Except.noConfusion h'
  · decide

/-- Witness for C6: a successful parse of `"weather in paris"` carries
the non-generic city `"paris"`, and the generic input
`"weather in here"` is rejected by both variants. -/
theorem c6_no_generic_city_witness :
    isGenericLocation (str "paris") = false
    ∧ parseVoiceCommandV1 (str "weather in here") =
        Except.error "Unrecognized weather command"
    ∧ parseVoiceCommandV2 (str "weather in here") =
        Except.error "Please specify a city name" :=
  ⟨c6_no_generic_city.1 (str "weather in paris")
      ⟨WeatherCommand.weather, some (str "paris"), true⟩ (str "paris")
      (Or.inl (by decide)) rfl rfl,
   (c6_no_generic_city.2 (str "here") (by decide)).1,
   (c6_no_generic_city.2 (str "here") (by decide)).2⟩

